import Mathlib

/-!
Shallow embedding of the `ai-profile-picture-stylizer` repository
(client-side image stylizer UI) and proofs about its spec claims.

Covered source units:
* `src/services/usage.ts` — token estimate and cost accumulation
  (JavaScript `number` arithmetic is modelled over `ℚ`; for the integer
  token counts the application produces, `+` and the cost formula are
  exact, so `ℚ` is a faithful model of the values the code computes).
* the credential/app-data store embedded in `src/README.md`
  (`saveKeys`/`loadKeys`/`saveAppData`/`loadAppData`): Web-Crypto
  AES-GCM/PBKDF2 and base64/JSON serialisation are platform primitives,
  modelled symbolically (ideal authenticated cipher: decryption succeeds
  exactly when key and nonce match, and returns the original plaintext);
  `localStorage` is a string-keyed partial map.
* the two OpenRouter clients (`src/services/openrouterService.ts` and
  `src/unnamed/part_001`) and the Gemini client in `src/README.md`:
  the network is an oracle argument supplying each `fetch` outcome, and
  each function also returns the list of requests it issued.
-/

namespace Stylizer

/-! ## Usage estimator (`src/services/usage.ts`) -/

/-- Usage record: `{ tokensIn, tokensOut, costUSD }` from `usage.ts`. -/
@[ext]
structure Usage where
  tokensIn : ℚ
  tokensOut : ℚ
  costUSD : ℚ
deriving DecidableEq, Repr

/-- `const PRICE_IN_PER_MILLION = 0.30` ($ per 1M tokens in). -/
def PRICE_IN_PER_MILLION : ℚ := 30 / 100

/-- `const PRICE_OUT_PER_MILLION = 2.50` ($ per 1M tokens out). -/
def PRICE_OUT_PER_MILLION : ℚ := 250 / 100

/-- `estimateTokensFromText`: `Math.ceil(text.length / 4)`, clamped to be
non-negative (`t > 0 ? t : 0`).  On a natural-number length, the ceiling
of `len / 4` is `(len + 3) / 4` in natural division. -/
def estimateTokensFromText (text : String) : Nat :=
  let t := (text.length + 3) / 4
  if t > 0 then t else 0

/-- `toFixed(6)` followed by unary `+`: round to six decimal places
(ECMAScript `toFixed` picks the larger candidate on ties, as `round` does). -/
def toFixed6 (x : ℚ) : ℚ := (round (x * 1000000) : ℤ) / 1000000

/-- `computeCostUSD(tokensIn, tokensOut)`:
`+(((tokensIn/1e6)*PRICE_IN + (tokensOut/1e6)*PRICE_OUT).toFixed(6))`. -/
def computeCostUSD (tokensIn tokensOut : ℚ) : ℚ :=
  let inCost := tokensIn / 1000000 * PRICE_IN_PER_MILLION
  let outCost := tokensOut / 1000000 * PRICE_OUT_PER_MILLION
  toFixed6 (inCost + outCost)

/-- `addUsage(prev, addIn, addOut)`: adds the increments into the running
totals and recomputes the cost from the new totals. -/
def addUsage (prev : Usage) (addIn addOut : ℚ) : Usage :=
  let tokensIn := prev.tokensIn + addIn
  let tokensOut := prev.tokensOut + addOut
  { tokensIn := tokensIn, tokensOut := tokensOut,
    costUSD := computeCostUSD tokensIn tokensOut }

/-- `const DEFAULT_USAGE = { tokensIn: 0, tokensOut: 0, costUSD: 0 }`. -/
def DEFAULT_USAGE : Usage := { tokensIn := 0, tokensOut := 0, costUSD := 0 }

/-- Folding a sequence of `(addIn, addOut)` increments through `addUsage`. -/
def applyUsages (u : Usage) (l : List (ℚ × ℚ)) : Usage :=
  l.foldl (fun acc p => addUsage acc p.1 p.2) u

end Stylizer

namespace Stylizer

theorem estimateTokens_eq_ceilDiv (s : String) :
    estimateTokensFromText s = (s.length + 3) / 4 := by
  simp only [estimateTokensFromText]
  split <;> omega

theorem ceil_div_four (n : Nat) :
    ⌈(n : ℚ) / 4⌉ = (((n + 3) / 4 : Nat) : ℤ) := by
  set k := (n + 3) / 4 with hk
  have h1 : 4 * k ≤ n + 3 := by omega
  have h3 : n ≤ 4 * k := by omega
  rw [Int.ceil_eq_iff]
  push_cast
  constructor
  · have hq : (4 * k : ℚ) ≤ (n : ℚ) + 3 := by exact_mod_cast h1
    linarith
  · have hq : (n : ℚ) ≤ 4 * k := by exact_mod_cast h3
    linarith

/-- C6: `estimateTokensFromText` equals the ceiling of `length / 4`, is
never negative, and returns `0`, `1`, `2` on strings of length `0`, `4`, `5`. -/
theorem estimateTokensFromText_spec (s : String) :
    ((estimateTokensFromText s : ℤ) = ⌈(s.length : ℚ) / 4⌉ ∧
      0 ≤ (estimateTokensFromText s : ℤ)) ∧
    estimateTokensFromText "" = 0 ∧
    estimateTokensFromText "abcd" = 1 ∧
    estimateTokensFromText "abcde" = 2 := by
  refine ⟨⟨?_, Int.ofNat_nonneg _⟩, rfl, rfl, rfl⟩
  rw [ceil_div_four, estimateTokens_eq_ceilDiv]

/-- C7: the cost formula, its two anchor values, and determinism. -/
theorem computeCostUSD_spec :
    computeCostUSD 1000000 0 = 3 / 10 ∧
    computeCostUSD 0 1000000 = 5 / 2 ∧
    (∀ tIn tOut : ℚ, computeCostUSD tIn tOut =
      toFixed6 (tIn * PRICE_IN_PER_MILLION / 1000000 +
        tOut * PRICE_OUT_PER_MILLION / 1000000)) ∧
    (∀ a b c d : ℚ, a = c → b = d → computeCostUSD a b = computeCostUSD c d) := by
  refine ⟨?_, ?_, fun tIn tOut => ?_, ?_⟩
  · simp only [computeCostUSD, toFixed6, PRICE_IN_PER_MILLION, PRICE_OUT_PER_MILLION]
    have h300 : ((1000000 : ℚ) / 1000000 * (30 / 100) +
        0 / 1000000 * (250 / 100)) * 1000000 = ((300000 : ℤ) : ℚ) := by norm_num
    rw [h300, round_intCast]
    norm_num
  · simp only [computeCostUSD, toFixed6, PRICE_IN_PER_MILLION, PRICE_OUT_PER_MILLION]
    have h250 : ((0 : ℚ) / 1000000 * (30 / 100) +
        1000000 / 1000000 * (250 / 100)) * 1000000 = ((2500000 : ℤ) : ℚ) := by norm_num
    rw [h250, round_intCast]
    norm_num
  · simp only [computeCostUSD]
    ring_nf
  · intro a b c d hac hbd
    rw [hac, hbd]

/-- Witness for C7's determinism clause at concrete inputs. -/
theorem computeCostUSD_spec_witness :
    (2 : ℚ) = 2 ∧ (5 : ℚ) = 5 ∧ computeCostUSD 2 5 = computeCostUSD 2 5 :=
  ⟨rfl, rfl, computeCostUSD_spec.2.2.2 2 5 2 5 rfl rfl⟩

/-- Invariant relating the cached cost to the token totals. -/
def UsageInv (u : Usage) : Prop :=
  u.costUSD = computeCostUSD u.tokensIn u.tokensOut

theorem addUsage_inv (u : Usage) (a b : ℚ) : UsageInv (addUsage u a b) := rfl

theorem applyUsages_cons (u : Usage) (p : ℚ × ℚ) (t : List (ℚ × ℚ)) :
    applyUsages u (p :: t) = applyUsages (addUsage u p.1 p.2) t := rfl

theorem applyUsages_tokensIn (u : Usage) (l : List (ℚ × ℚ)) :
    (applyUsages u l).tokensIn = u.tokensIn + (l.map Prod.fst).sum := by
  induction l generalizing u with
  | nil => simp [applyUsages]
  | cons p t ih =>
      rw [applyUsages_cons, ih]
      simp [addUsage]
      ring

theorem applyUsages_tokensOut (u : Usage) (l : List (ℚ × ℚ)) :
    (applyUsages u l).tokensOut = u.tokensOut + (l.map Prod.snd).sum := by
  induction l generalizing u with
  | nil => simp [applyUsages]
  | cons p t ih =>
      rw [applyUsages_cons, ih]
      simp [addUsage]
      ring

theorem applyUsages_inv (u : Usage) (l : List (ℚ × ℚ)) (h : UsageInv u) :
    UsageInv (applyUsages u l) := by
  induction l generalizing u with
  | nil => simpa [applyUsages]
  | cons p t ih => rw [applyUsages_cons]; exact ih _ (addUsage_inv u p.1 p.2)

theorem applyUsages_inv_of_ne (u : Usage) (l : List (ℚ × ℚ)) (h : l ≠ []) :
    UsageInv (applyUsages u l) := by
  match l with
  | p :: t =>
      rw [applyUsages_cons]
      exact applyUsages_inv _ t (addUsage_inv u p.1 p.2)

/-- C8: folding `addUsage` over any permutation of a sequence of
non-negative increments yields the same final `Usage`. -/
theorem addUsage_order_independent (u : Usage) (l1 l2 : List (ℚ × ℚ))
    (hperm : l1.Perm l2) (_hpos : ∀ p ∈ l1, 0 ≤ p.1 ∧ 0 ≤ p.2) :
    applyUsages u l1 = applyUsages u l2 := by
  rcases l1 with _ | ⟨p, t⟩
  · rw [hperm.symm.eq_nil]
  · have hne : l2 ≠ [] := by
      intro h
      subst h
      simpa using hperm.length_eq
    have h1 := applyUsages_inv_of_ne u (p :: t) (by simp)
    have h2 := applyUsages_inv_of_ne u l2 hne
    simp only [UsageInv] at h1 h2
    ext
    · rw [applyUsages_tokensIn, applyUsages_tokensIn, (hperm.map Prod.fst).sum_eq]
    · rw [applyUsages_tokensOut, applyUsages_tokensOut, (hperm.map Prod.snd).sum_eq]
    · rw [h1, h2, applyUsages_tokensIn, applyUsages_tokensIn,
        applyUsages_tokensOut, applyUsages_tokensOut,
        (hperm.map Prod.fst).sum_eq, (hperm.map Prod.snd).sum_eq]

/-- Witness for C8 at a concrete permuted pair of increment lists. -/
theorem addUsage_order_independent_witness :
    ([((1 : ℚ), (2 : ℚ)), (3, 4)]).Perm [((3 : ℚ), (4 : ℚ)), (1, 2)] ∧
    (∀ p ∈ [((1 : ℚ), (2 : ℚ)), (3, 4)], 0 ≤ p.1 ∧ 0 ≤ p.2) ∧
    applyUsages DEFAULT_USAGE [((1 : ℚ), (2 : ℚ)), (3, 4)] =
      applyUsages DEFAULT_USAGE [((3 : ℚ), (4 : ℚ)), (1, 2)] :=
  ⟨by decide, by decide,
    addUsage_order_independent DEFAULT_USAGE _ _ (by decide) (by decide)⟩

/-- C10: every `Usage` reachable from `DEFAULT_USAGE` by `addUsage` calls
satisfies `costUSD = computeCostUSD tokensIn tokensOut`; `DEFAULT_USAGE`
satisfies it and `addUsage` establishes it unconditionally. -/
theorem usage_invariant_reachable :
    UsageInv DEFAULT_USAGE ∧
    (∀ u a b, UsageInv (addUsage u a b)) ∧
    (∀ l, UsageInv (applyUsages DEFAULT_USAGE l)) := by
  have hd : UsageInv DEFAULT_USAGE := by
    simp only [UsageInv, DEFAULT_USAGE, computeCostUSD, toFixed6,
      PRICE_IN_PER_MILLION, PRICE_OUT_PER_MILLION]
    norm_num
  exact ⟨hd, fun u a b => addUsage_inv u a b, fun l => applyUsages_inv _ l hd⟩

/-! ## Credential / app-data store (key-storage module in `src/README.md`)

The store persists two independently encrypted slots in `localStorage`
(`aps.keys.*` for credentials, `aps.app.*` for application data) plus a
plaintext provider selection, and mirrors each slot in a module-level
in-memory variable.

Platform primitives are modelled symbolically:
* `deriveKey(passphrase, salt)` (PBKDF2) is the constructor `DerivedKey.mk`,
  injective in both arguments (ideal KDF, no collisions);
* AES-GCM encryption of a plaintext under a key and nonce is the
  constructor `Ciphertext.mk`; authenticated decryption succeeds exactly
  when the key and nonce match those used at encryption time, returning
  the original plaintext, and fails otherwise (ideal authenticated
  cipher; in particular a JS exception from `crypto.subtle.decrypt` is
  the `none` case, which the source's `try/catch` turns into `null`);
* `JSON.stringify`/`JSON.parse` and `bufferToBase64`/`base64ToBuffer` are
  mutually inverse injections, so the plaintext is carried in its typed
  form and a stored value that is not a well-formed entry for its slot
  models corrupted persisted data (decryption/parsing fails on it);
* `crypto.getRandomValues` outputs are passed in as explicit `salt`/`iv`
  arguments (drawn fresh by the caller in the source).
-/

/-- `interface StoredKeys { google?, openrouter? }`. -/
structure StoredKeys where
  google : Option String
  openrouter : Option String
deriving DecidableEq, Repr

/-- Symbolic PBKDF2-derived AES key: determined by passphrase and salt. -/
structure DerivedKey where
  passphrase : String
  salt : List Nat
deriving DecidableEq, Repr

/-- Symbolic AES-GCM ciphertext over plaintexts of type `α`: records the
key and nonce used for encryption together with the plaintext. -/
structure Ciphertext (α : Type) where
  key : DerivedKey
  iv : List Nat
  plain : α

/-- `crypto.subtle.encrypt({name: AES-GCM, iv}, key, plaintext)`. -/
def encryptGCM {α : Type} (key : DerivedKey) (iv : List Nat) (plain : α) :
    Ciphertext α :=
  ⟨key, iv, plain⟩

/-- `crypto.subtle.decrypt({name: AES-GCM, iv}, key, ct)`: succeeds with
the original plaintext exactly when key and nonce match, else fails
(authentication failure → JS exception → `none`). -/
def decryptGCM {α : Type} (key : DerivedKey) (iv : List Nat)
    (ct : Ciphertext α) : Option α :=
  if ct.key = key ∧ ct.iv = iv then some ct.plain else none

/-- Values storable in the modelled `localStorage`.  Real `localStorage`
holds strings; the injective base64/JSON encodings are left implicit by
keeping each value in its typed form.  `α` is the app-data payload type. -/
inductive StorageVal (α : Type) where
  | keysCipher (ct : Ciphertext StoredKeys)
  | appCipher (ct : Ciphertext α)
  | bytes (b : List Nat)
  | str (s : String)

/-- The seven `STORAGE_KEYS` constants. -/
def KEY_encrypted : String := "aps.keys.encrypted"

def KEY_iv : String := "aps.keys.iv"

def KEY_salt : String := "aps.keys.salt"

def KEY_provider : String := "aps.provider"

def KEY_appEnc : String := "aps.app.encrypted"

def KEY_appIv : String := "aps.app.iv"

def KEY_appSalt : String := "aps.app.salt"

/-- Module state: the two in-memory mirrors plus `localStorage`. -/
structure StoreState (α : Type) where
  inMemoryKeys : Option StoredKeys
  inMemoryApp : Option α
  localStorage : String → Option (StorageVal α)

/-- `localStorage.setItem`. -/
def setItem {α : Type} (ls : String → Option (StorageVal α)) (k : String)
    (v : StorageVal α) : String → Option (StorageVal α) :=
  fun k2 => if k2 = k then some v else ls k2

/-- `localStorage.removeItem`. -/
def removeItem {α : Type} (ls : String → Option (StorageVal α))
    (k : String) : String → Option (StorageVal α) :=
  fun k2 => if k2 = k then none else ls k2

/-- `saveKeys(keys, passphrase?)`.  `salt` and `iv` stand for the fresh
random values drawn in the passphrase branch. -/
def saveKeys {α : Type} (st : StoreState α) (keys : StoredKeys)
    (passphrase : Option String) (salt iv : List Nat) : StoreState α :=
  match passphrase with
  | none =>
      { st with
        inMemoryKeys := some keys,
        localStorage :=
          removeItem (removeItem (removeItem st.localStorage KEY_encrypted)
            KEY_iv) KEY_salt }
  | some p =>
      let key := DerivedKey.mk p salt
      let ct := encryptGCM key iv keys
      { st with
        inMemoryKeys := some keys,
        localStorage :=
          setItem (setItem (setItem st.localStorage
            KEY_encrypted (.keysCipher ct)) KEY_iv (.bytes iv))
            KEY_salt (.bytes salt) }

/-- `loadKeys(passphrase?)`: returns the loaded value (if any) and the
updated state (a successful decrypt refreshes the in-memory mirror). -/
def loadKeys {α : Type} (st : StoreState α) (passphrase : Option String) :
    Option StoredKeys × StoreState α :=
  match passphrase with
  | none => (st.inMemoryKeys, st)
  | some p =>
      match st.localStorage KEY_encrypted, st.localStorage KEY_iv,
          st.localStorage KEY_salt with
      | some (.keysCipher ct), some (.bytes iv), some (.bytes salt) =>
          let key := DerivedKey.mk p salt
          match decryptGCM key iv ct with
          | some parsed => (some parsed, { st with inMemoryKeys := some parsed })
          | none => (none, st)
      | _, _, _ => (none, st)

/-- `saveAppData(data, passphrase?)`. -/
def saveAppData {α : Type} (st : StoreState α) (data : α)
    (passphrase : Option String) (salt iv : List Nat) : StoreState α :=
  match passphrase with
  | none =>
      { st with
        inMemoryApp := some data,
        localStorage :=
          removeItem (removeItem (removeItem st.localStorage KEY_appEnc)
            KEY_appIv) KEY_appSalt }
  | some p =>
      let key := DerivedKey.mk p salt
      let ct := encryptGCM key iv data
      { st with
        inMemoryApp := some data,
        localStorage :=
          setItem (setItem (setItem st.localStorage
            KEY_appEnc (.appCipher ct)) KEY_appIv (.bytes iv))
            KEY_appSalt (.bytes salt) }

/-- `loadAppData(passphrase?)`. -/
def loadAppData {α : Type} (st : StoreState α) (passphrase : Option String) :
    Option α × StoreState α :=
  match passphrase with
  | none => (st.inMemoryApp, st)
  | some p =>
      match st.localStorage KEY_appEnc, st.localStorage KEY_appIv,
          st.localStorage KEY_appSalt with
      | some (.appCipher ct), some (.bytes iv), some (.bytes salt) =>
          let key := DerivedKey.mk p salt
          match decryptGCM key iv ct with
          | some parsed => (some parsed, { st with inMemoryApp := some parsed })
          | none => (none, st)
      | _, _, _ => (none, st)

theorem key_ne_enc_iv : KEY_encrypted ≠ KEY_iv := by decide

theorem key_ne_enc_salt : KEY_encrypted ≠ KEY_salt := by decide

theorem key_ne_iv_salt : KEY_iv ≠ KEY_salt := by decide

theorem key_ne_appEnc_appIv : KEY_appEnc ≠ KEY_appIv := by decide

theorem key_ne_appEnc_appSalt : KEY_appEnc ≠ KEY_appSalt := by decide

theorem key_ne_appIv_appSalt : KEY_appIv ≠ KEY_appSalt := by decide

/-- C1: saving with a passphrase and loading with the same passphrase
(with the persisted triple untouched in between) returns the saved value,
for both the credential slot and the app-data slot. -/
theorem save_load_roundtrip (α : Type) (st : StoreState α) (k : StoredKeys)
    (d : α) (p q : String) (salt iv salt2 iv2 : List Nat) :
    (loadKeys (saveKeys st k (some p) salt iv) (some p)).1 = some k ∧
    (loadAppData (saveAppData st d (some q) salt2 iv2) (some q)).1 = some d := by
  constructor
  · simp [saveKeys, loadKeys, setItem, encryptGCM, decryptGCM,
      key_ne_enc_iv, key_ne_enc_salt, key_ne_iv_salt]
  · simp [saveAppData, loadAppData, setItem, encryptGCM, decryptGCM,
      key_ne_appEnc_appIv, key_ne_appEnc_appSalt, key_ne_appIv_appSalt]

/-- Empty store state: fresh page, nothing persisted. -/
def emptyStore (α : Type) : StoreState α :=
  { inMemoryKeys := none, inMemoryApp := none, localStorage := fun _ => none }

/-- A state whose persisted app-data triple holds an arbitrary ciphertext,
nonce and salt (used to express loads from corrupted persisted data). -/
def withAppTriple {α : Type} (st : StoreState α) (ct : Ciphertext α)
    (iv salt : List Nat) : StoreState α :=
  { st with localStorage :=
      (setItem (setItem (setItem st.localStorage
        KEY_appEnc (.appCipher ct)) KEY_appIv (.bytes iv))
        KEY_appSalt (.bytes salt)) }

/-- C2: loading with a passphrase different from the one used at save
time yields `none` (never garbage, and the model is a total function, so
it never raises); loading from absent persisted data yields `none`; and
loading app data whose persisted ciphertext does not match the re-derived
key and nonce (corrupted data) yields `none`. -/
theorem load_mismatch_none (α : Type) :
    (∀ (st : StoreState α) (k : StoredKeys) (p1 p2 : String)
        (salt iv : List Nat), p1 ≠ p2 →
      (loadKeys (saveKeys st k (some p1) salt iv) (some p2)).1 = none) ∧
    (∀ (st : StoreState α) (d : α) (p1 p2 : String)
        (salt iv : List Nat), p1 ≠ p2 →
      (loadAppData (saveAppData st d (some p1) salt iv) (some p2)).1 = none) ∧
    (∀ p : String,
      (loadKeys (emptyStore α) (some p)).1 = none ∧
      (loadAppData (emptyStore α) (some p)).1 = none) ∧
    (∀ (st : StoreState α) (ct : Ciphertext α) (iv2 salt2 : List Nat)
        (p : String),
      ct.key ≠ DerivedKey.mk p salt2 ∨ ct.iv ≠ iv2 →
      (loadAppData (withAppTriple st ct iv2 salt2) (some p)).1 = none) := by
  refine ⟨?_, ?_, ?_, ?_⟩
  · intro st k p1 p2 salt iv h
    simp [saveKeys, loadKeys, setItem, encryptGCM, decryptGCM,
      key_ne_enc_iv, key_ne_enc_salt, key_ne_iv_salt, h]
  · intro st d p1 p2 salt iv h
    simp [saveAppData, loadAppData, setItem, encryptGCM, decryptGCM,
      key_ne_appEnc_appIv, key_ne_appEnc_appSalt, key_ne_appIv_appSalt, h]
  · intro p
    constructor <;> simp [loadKeys, loadAppData, emptyStore]
  · intro st ct iv2 salt2 p h
    rcases h with h | h <;>
      simp [loadAppData, withAppTriple, setItem, decryptGCM,
        key_ne_appEnc_appIv, key_ne_appEnc_appSalt, key_ne_appIv_appSalt, h]

/-- Witness for C2 at concrete inputs: distinct passphrases, an empty
store, and a mismatched ciphertext. -/
theorem load_mismatch_none_witness :
    (("a" : String) ≠ "b" ∧
      (loadKeys (saveKeys (emptyStore Nat) ⟨some "g", none⟩ (some "a")
        [1] [2]) (some "b")).1 = none) ∧
    (loadKeys (emptyStore Nat) (some "a")).1 = none ∧
    ((DerivedKey.mk "x" [3] ≠ DerivedKey.mk "a" [3] ∨ ([2] : List Nat) ≠ [2]) ∧
      (loadAppData (withAppTriple (emptyStore Nat)
        ⟨DerivedKey.mk "x" [3], [2], 7⟩ [2] [3]) (some "a")).1 = none) :=
  ⟨⟨by decide,
      (load_mismatch_none Nat).1 (emptyStore Nat) ⟨some "g", none⟩ "a" "b"
        [1] [2] (by decide)⟩,
    ((load_mismatch_none Nat).2.2.1 "a").1,
    ⟨Or.inl (by decide),
      (load_mismatch_none Nat).2.2.2 (emptyStore Nat)
        ⟨DerivedKey.mk "x" [3], [2], 7⟩ [2] [3] "a" (Or.inl (by decide))⟩⟩

/-- C9: saving with an absent passphrase keeps the data only in the
in-memory slot, removes the three persisted entries of that slot, and
touches nothing else in persistent storage. -/
theorem save_no_passphrase_memory_only (α : Type) (st : StoreState α)
    (k : StoredKeys) (d : α) (salt iv salt2 iv2 : List Nat) :
    ((saveKeys st k none salt iv).localStorage KEY_encrypted = none ∧
      (saveKeys st k none salt iv).localStorage KEY_iv = none ∧
      (saveKeys st k none salt iv).localStorage KEY_salt = none ∧
      (saveKeys st k none salt iv).inMemoryKeys = some k ∧
      (saveKeys st k none salt iv).inMemoryApp = st.inMemoryApp ∧
      ∀ key2, key2 ≠ KEY_encrypted → key2 ≠ KEY_iv → key2 ≠ KEY_salt →
        (saveKeys st k none salt iv).localStorage key2 =
          st.localStorage key2) ∧
    ((saveAppData st d none salt2 iv2).localStorage KEY_appEnc = none ∧
      (saveAppData st d none salt2 iv2).localStorage KEY_appIv = none ∧
      (saveAppData st d none salt2 iv2).localStorage KEY_appSalt = none ∧
      (saveAppData st d none salt2 iv2).inMemoryApp = some d ∧
      (saveAppData st d none salt2 iv2).inMemoryKeys = st.inMemoryKeys ∧
      ∀ key2, key2 ≠ KEY_appEnc → key2 ≠ KEY_appIv → key2 ≠ KEY_appSalt →
        (saveAppData st d none salt2 iv2).localStorage key2 =
          st.localStorage key2) := by
  constructor
  · refine ⟨?_, ?_, ?_, rfl, rfl, ?_⟩
    · simp [saveKeys, removeItem, key_ne_enc_iv, key_ne_enc_salt]
    · simp [saveKeys, removeItem, key_ne_iv_salt]
    · simp [saveKeys, removeItem]
    · intro key2 h1 h2 h3
      simp [saveKeys, removeItem, h1, h2, h3]
  · refine ⟨?_, ?_, ?_, rfl, rfl, ?_⟩
    · simp [saveAppData, removeItem, key_ne_appEnc_appIv, key_ne_appEnc_appSalt]
    · simp [saveAppData, removeItem, key_ne_appIv_appSalt]
    · simp [saveAppData, removeItem]
    · intro key2 h1 h2 h3
      simp [saveAppData, removeItem, h1, h2, h3]

/-- Witness for C9's untouched-entry clauses at a concrete other key. -/
theorem save_no_passphrase_memory_only_witness :
    (KEY_provider ≠ KEY_encrypted ∧ KEY_provider ≠ KEY_iv ∧
      KEY_provider ≠ KEY_salt ∧
      (saveKeys (emptyStore Nat) ⟨some "g", none⟩ none [] []).localStorage
          KEY_provider =
        (emptyStore Nat).localStorage KEY_provider) ∧
    (KEY_provider ≠ KEY_appEnc ∧ KEY_provider ≠ KEY_appIv ∧
      KEY_provider ≠ KEY_appSalt ∧
      (saveAppData (emptyStore Nat) 7 none [] []).localStorage KEY_provider =
        (emptyStore Nat).localStorage KEY_provider) :=
  ⟨⟨by decide, by decide, by decide,
      (save_no_passphrase_memory_only Nat (emptyStore Nat) ⟨some "g", none⟩ 7
        [] [] [] []).1.2.2.2.2.2 KEY_provider (by decide) (by decide)
        (by decide)⟩,
    ⟨by decide, by decide, by decide,
      (save_no_passphrase_memory_only Nat (emptyStore Nat) ⟨some "g", none⟩ 7
        [] [] [] []).2.2.2.2.2.2 KEY_provider (by decide) (by decide)
        (by decide)⟩⟩

/-! ## Provider clients

Two OpenRouter clients exist in the repository:
`stylizeImageOpenRouter` in `src/services/openrouterService.ts` (multipart
attempt with a fallback JSON attempt) and an older single-attempt variant
in `src/unnamed/part_001`, modelled as `stylizeImageOpenRouterV0`.  The
Gemini client `stylizeImage` is in `src/README.md`.

The network is an oracle: each `fetch`/`generateContent` outcome is an
explicit argument (`Except`: `.error` = the call threw, `.ok` = an HTTP
response).  Each modelled function returns its result together with the
list of requests it issued, so "no network attempt" is an empty list.
`atob` of the input image and `FormData`/`Blob` construction are modelled
as always succeeding (well-formed base64 input). -/

/-- Parsed response JSON, restricted to the three shapes the clients
probe: `data[0].b64_json`, `images[0].b64_json`, `output`.  A field that
is absent (or of the wrong type at that path) is `none`. -/
structure ORJson where
  data0b64 : Option String
  images0b64 : Option String
  output : Option String
deriving DecidableEq, Repr

/-- An HTTP response: `ok`/`status`/`statusText`, the body text, and the
result of `res.json()` (`none` models a body that fails to parse). -/
structure HttpResponse where
  ok : Bool
  status : Nat
  statusText : String
  bodyText : String
  json : Option ORJson
deriving DecidableEq, Repr

/-- Outcome of one `fetch`: the call threw (network error) or returned. -/
abbrev FetchResult := Except String HttpResponse

/-- Requests a client can issue against the images endpoint. -/
inductive ORRequest where
  | multipart (apiKey : String)
  | jsonBody (apiKey : String)
deriving DecidableEq, Repr

/-- Errors of the OpenRouter clients (the source throws `Error` values
whose message embeds these data; `Json`-suffixed constructors carry the
distinct `(json)` message of the fallback path). -/
inductive ORError where
  | missingCredential
  | providerRejected (status : Nat) (statusText : String) (bodyText : String)
  | providerRejectedJson (status : Nat) (statusText : String)
      (bodyText : String)
  | noImageReturned
  | noImageReturnedJson
  | networkError (msg : String)
  | parseError
deriving DecidableEq, Repr

/-- JavaScript truthiness of `string | undefined`: defined and non-empty. -/
def truthy (o : Option String) : Option String :=
  match o with
  | none => none
  | some s => if s = "" then none else some s

/-- The candidate probe order: `data[0].b64_json`, then
`images[0].b64_json`, then `output`. -/
def firstCandidate (j : ORJson) : Option String :=
  match truthy j.data0b64 with
  | some s => some s
  | none =>
      match truthy j.images0b64 with
      | some s => some s
      | none => truthy j.output

/-- `stylizeImageOpenRouter` from `src/unnamed/part_001`: single
multipart request, then status check, then the three-shape probe. -/
def stylizeImageOpenRouterV0 (base64ImageData mimeType prompt : String)
    (apiKey : String) (fetch1 : FetchResult) :
    Except ORError String × List ORRequest :=
  if apiKey = "" then (.error .missingCredential, [])
  else
    match fetch1 with
    | .error e => (.error (.networkError e), [.multipart apiKey])
    | .ok res =>
        if res.ok then
          match res.json with
          | none => (.error .parseError, [.multipart apiKey])
          | some j =>
              match firstCandidate j with
              | some img => (.ok img, [.multipart apiKey])
              | none => (.error .noImageReturned, [.multipart apiKey])
        else
          (.error (.providerRejected res.status res.statusText res.bodyText),
            [.multipart apiKey])

/-- First (multipart) attempt of `stylizeImageOpenRouter` from
`src/services/openrouterService.ts`.  The whole attempt sits inside a
`try { ... } catch (e) { /- try JSON next -/ }`, so every throw inside
it — the network error, a `res.json()` failure, the explicit
`ProviderRejected` throw for statuses outside {405, 415, 400}, and the
explicit `NoImageReturned` throw — is swallowed and the call falls
through to the JSON attempt.  The attempt therefore settles the call
only when it returns an image. -/
def attempt1Settles (fetch1 : FetchResult) : Option String :=
  match fetch1 with
  | .error _ => none
  | .ok res =>
      if res.ok then
        match res.json with
        | none => none
        | some j => firstCandidate j
      else
        none

/-- `stylizeImageOpenRouter` from `src/services/openrouterService.ts`:
multipart attempt (see `attempt1Settles`), then a JSON-body fallback
whose failures propagate. -/
def stylizeImageOpenRouter (base64ImageData mimeType prompt : String)
    (apiKey : String) (fetch1 fetch2 : FetchResult) :
    Except ORError String × List ORRequest :=
  if apiKey = "" then (.error .missingCredential, [])
  else
    match attempt1Settles fetch1 with
    | some img => (.ok img, [.multipart apiKey])
    | none =>
        let reqs := [ORRequest.multipart apiKey, ORRequest.jsonBody apiKey]
        match fetch2 with
        | .error e => (.error (.networkError e), reqs)
        | .ok res2 =>
            if res2.ok then
              match res2.json with
              | none => (.error .parseError, reqs)
              | some j =>
                  match firstCandidate j with
                  | some img => (.ok img, reqs)
                  | none => (.error .noImageReturnedJson, reqs)
            else
              (.error (.providerRejectedJson res2.status res2.statusText
                res2.bodyText), reqs)

/-- Gemini response model: `candidates[0].content.parts` with optional
`inlineData.data`, `safetyRatings` probabilities, and `finishReason`. -/
structure GeminiInlineData where
  data : String
deriving DecidableEq, Repr

structure GeminiPart where
  inlineData : Option GeminiInlineData
deriving DecidableEq, Repr

structure GeminiContent where
  parts : List GeminiPart
deriving DecidableEq, Repr

structure GeminiCandidate where
  content : Option GeminiContent
  safetyRatings : Option (List String)
  finishReason : Option String
deriving DecidableEq, Repr

structure GeminiResponse where
  candidates : List GeminiCandidate
deriving DecidableEq, Repr

/-- Errors of the Gemini client; the source rethrows every failure as a
fresh `Error` carrying the same message (`error.message || fallback`),
which preserves these cases. -/
inductive GeminiError where
  | missingKey
  | blockedBySafety
  | badFinishReason (reason : String)
  | noImage
  | apiError (msg : String)
deriving DecidableEq, Repr

/-- `stylizeImage` from the Gemini service in `src/README.md`.  `gen` is
the outcome of `ai.models.generateContent` (the one network call); the
returned `Nat` counts the network calls made. -/
def stylizeImage (base64ImageData mimeType prompt : String)
    (apiKey : String) (gen : Except String GeminiResponse) :
    Except GeminiError String × Nat :=
  if apiKey = "" then (.error .missingKey, 0)
  else
    match gen with
    | .error msg => (.error (.apiError msg), 1)
    | .ok response =>
        let parts :=
          match response.candidates.head? with
          | none => []
          | some c =>
              match c.content with
              | none => []
              | some content => content.parts
        match parts.find? (fun part => part.inlineData.isSome) with
        | some imagePart =>
            match imagePart.inlineData with
            | some d => (.ok d.data, 1)
            | none => (.error .noImage, 1)
        | none =>
            let ratings :=
              match response.candidates.head? with
              | none => none
              | some c => c.safetyRatings
            if (ratings.getD []).any (fun r => r ≠ "NEGLIGIBLE") then
              (.error .blockedBySafety, 1)
            else
              match response.candidates.head? with
              | some c =>
                  match c.finishReason with
                  | some reason =>
                      if reason ≠ "" ∧ reason ≠ "STOP" then
                        (.error (.badFinishReason reason), 1)
                      else (.error .noImage, 1)
                  | none => (.error .noImage, 1)
              | none => (.error .noImage, 1)

/-- C3: with an empty credential, every provider stylize operation fails
with the missing-credential condition and issues no network request. -/
theorem missing_credential_before_network
    (img mime prompt : String) (f1 f2 : FetchResult)
    (gen : Except String GeminiResponse) :
    stylizeImageOpenRouter img mime prompt "" f1 f2 =
      (.error .missingCredential, []) ∧
    stylizeImageOpenRouterV0 img mime prompt "" f1 =
      (.error .missingCredential, []) ∧
    stylizeImage img mime prompt "" gen = (.error .missingKey, 0) :=
  ⟨rfl, rfl, rfl⟩

/-- A non-success response to the multipart attempt. -/
def resp500 : HttpResponse :=
  { ok := false, status := 500, statusText := "Internal Server Error",
    bodyText := "oops", json := none }

/-- A success response carrying a `data[0].b64_json` payload. -/
def respWithImage : HttpResponse :=
  { ok := true, status := 200, statusText := "OK", bodyText := "",
    json := some ⟨some "IMG", none, none⟩ }

/-- A success response that parses but carries none of the three payload
shapes. -/
def respEmptyJson : HttpResponse :=
  { ok := true, status := 200, statusText := "OK", bodyText := "{}",
    json := some { data0b64 := none, images0b64 := none, output := none } }

/-- C4 counterexample: in the fallback client a call whose multipart
response has a non-success status does not fail at all when the JSON
fallback succeeds — the `try/catch` swallows the `ProviderRejected`
throw for that response. -/
theorem providerRejected_counterexample :
    resp500.ok = false ∧ resp500.status = 500 ∧
    (stylizeImageOpenRouter "imgdata" "image/png" "style" "key"
      (.ok resp500) (.ok respWithImage)).1 = .ok "IMG" :=
  ⟨rfl, rfl, rfl⟩

/-- C4 amended: the single-attempt client fails with `ProviderRejected`
carrying status, status text and body on every non-success response; the
fallback client does so (with its `(json)` message) exactly for the
response of its JSON fallback request, while a non-success multipart
response never settles the call and instead triggers the fallback. -/
theorem providerRejected_spec (img mime prompt apiKey : String)
    (status : Nat) (stext body : String) (j : Option ORJson)
    (f1 : FetchResult) (hkey : apiKey ≠ "")
    (hf1 : attempt1Settles f1 = none) :
    (stylizeImageOpenRouterV0 img mime prompt apiKey
        (.ok ⟨false, status, stext, body, j⟩)).1 =
      .error (.providerRejected status stext body) ∧
    (stylizeImageOpenRouter img mime prompt apiKey f1
        (.ok ⟨false, status, stext, body, j⟩)).1 =
      .error (.providerRejectedJson status stext body) ∧
    attempt1Settles (.ok ⟨false, status, stext, body, j⟩) = none := by
  refine ⟨?_, ?_, ?_⟩
  · simp [stylizeImageOpenRouterV0, hkey]
  · simp [stylizeImageOpenRouter, hkey, hf1]
  · simp [attempt1Settles]

/-- Witness for the amended C4 at concrete inputs. -/
theorem providerRejected_spec_witness :
    ("key" : String) ≠ "" ∧
    attempt1Settles (.ok resp500) = none ∧
    (stylizeImageOpenRouterV0 "imgdata" "image/png" "style" "key"
        (.ok ⟨false, 404, "Not Found", "nope", none⟩)).1 =
      .error (.providerRejected 404 "Not Found" "nope") :=
  ⟨by decide, rfl,
    (providerRejected_spec "imgdata" "image/png" "style" "key" 404
      "Not Found" "nope" none (.ok resp500) (by decide) rfl).1⟩

theorem firstCandidate_eq_none (j : ORJson) :
    firstCandidate j = none ↔
      truthy j.data0b64 = none ∧ truthy j.images0b64 = none ∧
        truthy j.output = none := by
  cases hd : truthy j.data0b64 <;> cases hi : truthy j.images0b64 <;>
    cases ho : truthy j.output <;> simp [firstCandidate, hd, hi, ho]

theorem stylizeV0_ok_result (img mime prompt apiKey : String)
    (hkey : apiKey ≠ "") (status : Nat) (stext body : String) (j : ORJson) :
    (stylizeImageOpenRouterV0 img mime prompt apiKey
        (.ok ⟨true, status, stext, body, some j⟩)).1 =
      (match firstCandidate j with
        | some c => .ok c
        | none => .error .noImageReturned) := by
  simp only [stylizeImageOpenRouterV0, if_neg hkey]
  cases firstCandidate j <;> simp

theorem stylize_fallback_result (img mime prompt apiKey : String)
    (hkey : apiKey ≠ "") (f1 : FetchResult)
    (hf1 : attempt1Settles f1 = none) (status : Nat) (stext body : String)
    (j : ORJson) :
    (stylizeImageOpenRouter img mime prompt apiKey f1
        (.ok ⟨true, status, stext, body, some j⟩)).1 =
      (match firstCandidate j with
        | some c => .ok c
        | none => .error .noImageReturnedJson) := by
  simp only [stylizeImageOpenRouter, if_neg hkey, hf1]
  cases firstCandidate j <;> simp

/-- C5 counterexample: in the fallback client a successfully parsed
multipart response with none of the three payload shapes does not make
the call fail with `NoImageReturned` — the throw is swallowed and the
JSON fallback runs (and here succeeds). -/
theorem noImageReturned_counterexample :
    respEmptyJson.ok = true ∧
    respEmptyJson.json = some ⟨none, none, none⟩ ∧
    firstCandidate ⟨none, none, none⟩ = none ∧
    (stylizeImageOpenRouter "imgdata" "image/png" "style" "key"
      (.ok respEmptyJson) (.ok respWithImage)).1 = .ok "IMG" :=
  ⟨rfl, rfl, rfl, rfl⟩

/-- C5 amended: for the single-attempt client every successfully parsed
success response yields the first truthy payload among
`data[0].b64_json`, `images[0].b64_json`, `output` in exactly that
order, and fails with `NoImageReturned` iff none is present; the
fallback client behaves the same way on the response of its JSON
fallback request, while a payload-free parsed multipart response
triggers the fallback instead of failing. -/
theorem noImageReturned_spec (img mime prompt apiKey : String)
    (status : Nat) (stext body : String) (j : ORJson) (f1 : FetchResult)
    (hkey : apiKey ≠ "") (hf1 : attempt1Settles f1 = none) :
    ((∀ c, truthy j.data0b64 = some c →
        (stylizeImageOpenRouterV0 img mime prompt apiKey
          (.ok ⟨true, status, stext, body, some j⟩)).1 = .ok c) ∧
      (∀ c, truthy j.data0b64 = none → truthy j.images0b64 = some c →
        (stylizeImageOpenRouterV0 img mime prompt apiKey
          (.ok ⟨true, status, stext, body, some j⟩)).1 = .ok c) ∧
      (∀ c, truthy j.data0b64 = none → truthy j.images0b64 = none →
        truthy j.output = some c →
        (stylizeImageOpenRouterV0 img mime prompt apiKey
          (.ok ⟨true, status, stext, body, some j⟩)).1 = .ok c) ∧
      ((stylizeImageOpenRouterV0 img mime prompt apiKey
          (.ok ⟨true, status, stext, body, some j⟩)).1 =
            .error .noImageReturned ↔
        truthy j.data0b64 = none ∧ truthy j.images0b64 = none ∧
          truthy j.output = none)) ∧
    ((∀ c, truthy j.data0b64 = some c →
        (stylizeImageOpenRouter img mime prompt apiKey f1
          (.ok ⟨true, status, stext, body, some j⟩)).1 = .ok c) ∧
      (∀ c, truthy j.data0b64 = none → truthy j.images0b64 = some c →
        (stylizeImageOpenRouter img mime prompt apiKey f1
          (.ok ⟨true, status, stext, body, some j⟩)).1 = .ok c) ∧
      (∀ c, truthy j.data0b64 = none → truthy j.images0b64 = none →
        truthy j.output = some c →
        (stylizeImageOpenRouter img mime prompt apiKey f1
          (.ok ⟨true, status, stext, body, some j⟩)).1 = .ok c) ∧
      ((stylizeImageOpenRouter img mime prompt apiKey f1
          (.ok ⟨true, status, stext, body, some j⟩)).1 =
            .error .noImageReturnedJson ↔
        truthy j.data0b64 = none ∧ truthy j.images0b64 = none ∧
          truthy j.output = none)) := by
  rw [and_comm]
  have hV0 := stylizeV0_ok_result img mime prompt apiKey hkey status stext
    body j
  have hFb := stylize_fallback_result img mime prompt apiKey hkey f1 hf1
    status stext body j
  constructor
  · rw [hFb]
    refine ⟨fun c hc => ?_, fun c hd hc => ?_, fun c hd hi hc => ?_, ?_⟩
    · simp [firstCandidate, hc]
    · simp [firstCandidate, hd, hc]
    · simp [firstCandidate, hd, hi, hc]
    · rw [← firstCandidate_eq_none]
      cases firstCandidate j <;> simp
  · rw [hV0]
    refine ⟨fun c hc => ?_, fun c hd hc => ?_, fun c hd hi hc => ?_, ?_⟩
    · simp [firstCandidate, hc]
    · simp [firstCandidate, hd, hc]
    · simp [firstCandidate, hd, hi, hc]
    · rw [← firstCandidate_eq_none]
      cases firstCandidate j <;> simp

/-- Witness for the amended C5 at a concrete parsed response. -/
theorem noImageReturned_spec_witness :
    ("key" : String) ≠ "" ∧
    attempt1Settles (.ok resp500) = none ∧
    truthy (some "IMG") = some "IMG" ∧
    (stylizeImageOpenRouterV0 "imgdata" "image/png" "style" "key"
      (.ok ⟨true, 200, "OK", "", some ⟨some "IMG", none, none⟩⟩)).1 =
        .ok "IMG" :=
  ⟨by decide, rfl, rfl,
    (noImageReturned_spec "imgdata" "image/png" "style" "key" 200 "OK" ""
      ⟨some "IMG", none, none⟩ (.ok resp500) (by decide) rfl).1.1 "IMG" rfl⟩

end Stylizer
